import Mathlib

/-
  Shallow embedding of the INIAD-MOOCs-MCP server core (TypeScript sources
  src/tools/submitAssignment.ts, src/tools/handleDialog.ts, src/tools/login.ts
  probe variant, src/server.ts).

  Browser-side effects (Playwright locator actions, dialog accept/dismiss,
  the file chooser) are modelled by an explicit environment: each primitive
  either succeeds or throws with an error message (`Option String`, `none`
  meaning success).  The embedding additionally records instrumentation
  (which operations were attempted, what was presented to the file chooser,
  whether accept/dismiss was invoked) mirroring the external calls the code
  makes, so that "never attempted / never clicked / never filled" properties
  are statable.
-/

namespace IniadMcp

/-- Shape of an operation `value` after JSON decoding: a string, an array of
strings, or absent (`undefined`).  Mirrors the zod union in
submitAssignment.ts line 27. -/
inductive JSValue where
  | str (s : String)
  | strs (l : List String)
  | absent
deriving Repr, DecidableEq

/-- The string produced by the JavaScript `typeof` operator on a value of the
given shape (arrays are `"object"`). -/
def JSValue.jsTypeof : JSValue → String
  | .str _ => "string"
  | .strs _ => "object"
  | .absent => "undefined"

/-- JavaScript truthiness of an operation value: `undefined` and the empty
string are falsy, any array (even empty) is truthy. -/
def JSValue.truthy : JSValue → Bool
  | .str s => !s.isEmpty
  | .strs _ => true
  | .absent => false

/-- The action enum of submitAssignment.ts line 22 (`type` is a Lean keyword,
hence `type'`). -/
inductive Action where
  | type'
  | click
  | check
  | uncheck
  | select
  | upload
deriving Repr, DecidableEq

/-- One input operation of a submission request (submitAssignment.ts
lines 24-33). -/
structure Operation where
  action : Action
  ref : String
  value : JSValue
  element : Option String
deriving Repr, DecidableEq

/-- The human-readable name used in trace lines (submitAssignment.ts
line 64). -/
def Operation.elementName (op : Operation) : String :=
  op.element.getD ("element with ref " ++ op.ref)

/-- Validated parameters of submit_assignment (submitAssignment.ts
lines 35-39). -/
structure SubmitParams where
  operations : List Operation
  submitButtonRef : String
  submitButtonElement : Option String
deriving Repr

/-- A pending browser dialog: its message and type, and whether `accept()` /
`dismiss()` would succeed (`none`) or throw the given error string. -/
structure Dialog where
  message : String
  dtype : String
  acceptErr : Option String
  dismissErr : Option String
deriving Repr, DecidableEq

/-- The browser environment a submission runs against.  Each field models one
Playwright primitive used by the tool: `none` = the awaited call resolves,
`some e` = it rejects with message `e`.  `chooserAppears` tells whether the
file chooser event fires within the 5000 ms bound after clicking the given
ref; `pendingDialog` is the content of the tab's pending-dialog slot when the
post-submit arbiter reads it. -/
structure PageEnv where
  snapshotAvailable : Bool
  fillErr : String → String → Option String
  clickErr : String → Option String
  checkErr : String → Option String
  uncheckErr : String → Option String
  selectErr : String → List String → Option String
  chooserAppears : String → Bool
  setFilesErr : String → List String → Option String
  pendingDialog : Option Dialog

/-- The ternary `Array.isArray(v) ? v : [v]` of submitAssignment.ts lines 90
and 98 (for `absent` the branch is unreachable behind the shape checks). -/
def JSValue.asList : JSValue → List String
  | .str s => [s]
  | .strs l => l
  | .absent => []

/-- Result of executing one operation: the trace entries it appended, the
file-path lists it presented to the file chooser (ref paired with paths, one
entry per `setFiles` call), and `none` on success or the thrown message. -/
structure OpResult where
  entries : List String
  uploads : List (String × List String)
  err : Option String
deriving Repr

/-- One iteration of the dispatch loop of submitAssignment.ts lines 62-118,
translated case by case.  Value-shape checks, the JS truthiness check on
upload values, generated error messages and the order of trace pushes follow
the source. -/
def execOp (env : PageEnv) (op : Operation) : OpResult :=
  let name := op.elementName
  match op.action with
  | .type' =>
    match op.value with
    | .str v =>
      match env.fillErr op.ref v with
      | some e => ⟨[], [], some e⟩
      | none => ⟨[s!"Typed \"{v}\" into \"{name}\""], [], none⟩
    | v =>
      let t := v.jsTypeof
      ⟨[], [], some s!"Invalid value type for 'type' action: expected string, got {t}"⟩
  | .click =>
    match env.clickErr op.ref with
    | some e => ⟨[], [], some e⟩
    | none => ⟨[s!"Clicked \"{name}\""], [], none⟩
  | .check =>
    match env.checkErr op.ref with
    | some e => ⟨[], [], some e⟩
    | none => ⟨[s!"Checked \"{name}\""], [], none⟩
  | .uncheck =>
    match env.uncheckErr op.ref with
    | some e => ⟨[], [], some e⟩
    | none => ⟨[s!"Unchecked \"{name}\""], [], none⟩
  | .select =>
    match op.value with
    | .absent =>
      ⟨[], [], some "Invalid value type for 'select' action: expected string or array of strings, got undefined"⟩
    | v =>
      match env.selectErr op.ref v.asList with
      | some e => ⟨[], [], some e⟩
      | none => ⟨[s!"Selected option(s) in \"{name}\""], [], none⟩
  | .upload =>
    if !op.value.truthy then
      let t := op.value.jsTypeof
      ⟨[], [], some s!"Invalid value type for 'upload' action: expected string or array of strings (file paths), got {t}"⟩
    else
      let paths := op.value.asList
      match env.clickErr op.ref with
      | some e => ⟨[], [], some e⟩
      | none =>
        let clickedEntry := s!"Clicked upload trigger \"{name}\""
        if !env.chooserAppears op.ref then
          ⟨[clickedEntry], [],
            some s!"Timeout: File chooser did not appear for \"{name}\" within 5000ms after clicking."⟩
        else
          match env.setFilesErr op.ref paths with
          | some e => ⟨[clickedEntry], [(op.ref, paths)], some e⟩
          | none =>
            let joined := ", ".intercalate paths
            ⟨[clickedEntry, s!"Selected file(s) for \"{name}\": {joined}"],
              [(op.ref, paths)], none⟩

/-- Accumulated outcome of the operation loop: the `performedActions` trace,
the operations whose dispatch began, the file-chooser presentations, and the
first thrown error if any (the loop stops there). -/
structure SeqResult where
  trace : List String
  attempted : List Operation
  uploads : List (String × List String)
  err : Option String
deriving Repr

/-- The `for (const operation of validatedParams.operations)` loop: execute
operations in order, stopping at the first failure. -/
def runOps (env : PageEnv) : List Operation → SeqResult
  | [] => ⟨[], [], [], none⟩
  | op :: rest =>
    let r := execOp env op
    match r.err with
    | some e => ⟨r.entries, [op], r.uploads, some e⟩
    | none =>
      let rr := runOps env rest
      ⟨r.entries ++ rr.trace, op :: rr.attempted, r.uploads ++ rr.uploads, rr.err⟩

/-- The accepted Japanese confirmation phrase (submitAssignment.ts
line 136). -/
def expectedJP : String := "すべての回答を保存しました。"

/-- The accepted English confirmation phrase (submitAssignment.ts
line 137). -/
def expectedEN : String := "All your answers have been saved."

/-- Auxiliary for `strIncludes`: does `sub` occur as a contiguous block of
`hay`? -/
def includesAux (sub : List Char) : List Char → Bool
  | [] => sub.isEmpty
  | c :: rest => sub.isPrefixOf (c :: rest) || includesAux sub rest

/-- JavaScript `hay.includes(sub)`: substring containment. -/
def strIncludes (hay sub : String) : Bool :=
  includesAux sub.data hay.data

/-- JavaScript `String.prototype.trim` on the character list: strip
whitespace from both ends. -/
def jsTrimChars (l : List Char) : List Char :=
  ((l.dropWhile Char.isWhitespace).reverse.dropWhile Char.isWhitespace).reverse

/-- Whether the trimmed dialog message contains the given phrase
(`normalizedMessage.includes(phrase)` of submitAssignment.ts line 141). -/
def trimmedIncludes (m phrase : String) : Bool :=
  includesAux phrase.data (jsTrimChars m.data)

/-- Outcome of the post-submit dialog arbitration (submitAssignment.ts
lines 129-158): trace entries appended, the `dialogErrorDetected` flag,
whether `accept()` / `dismiss()` was invoked on the pending dialog, and the
content of the pending-dialog slot afterwards. -/
structure DialogOutcome where
  entries : List String
  errorDetected : Bool
  acceptCalled : Bool
  dismissCalled : Bool
  pendingAfter : Option Dialog
deriving Repr

/-- The dialog arbiter: if a dialog is pending, check its trimmed message for
the two accepted phrases, record a mismatch line if neither occurs, then
always `accept()` it (a throwing accept is caught and recorded); the slot is
cleared in a `finally`.  If no dialog is pending, record the error line and
flag the error. -/
def arbiter (slot : Option Dialog) : DialogOutcome :=
  match slot with
  | none =>
    ⟨["Error: No confirmation dialog appeared after clicking submit"], true, false, false, none⟩
  | some d =>
    let m := d.message
    let mismatch := !trimmedIncludes m expectedJP && !trimmedIncludes m expectedEN
    let mismatchEntries := if mismatch then [s!"Unexpected dialog message detected: \"{m}\""] else []
    match d.acceptErr with
    | none =>
      let dt := d.dtype
      ⟨mismatchEntries ++ [s!"Dialog \"{dt}\" with message \"{m}\" accepted automatically"],
        mismatch, true, false, none⟩
    | some e =>
      ⟨mismatchEntries ++ [s!"Failed to automatically handle dialog: {e}"],
        true, true, false, none⟩

/-- The structured result a tool hands back to the server (`content` texts
plus the `isError` flag; an absent flag in the source is `false`). -/
structure ToolResult where
  content : List String
  isError : Bool
deriving Repr, DecidableEq

/-- Instrumentation of one submit_assignment run: the final
`performedActions` trace, the operations attempted, the file-chooser
presentations, whether the submit button's click was invoked, whether the
pending dialog's accept/dismiss was invoked, and the pending-dialog slot
content after the run. -/
structure RunLog where
  trace : List String
  attempted : List Operation
  uploads : List (String × List String)
  submitClicked : Bool
  acceptCalled : Bool
  dismissCalled : Bool
  pendingAfter : Option Dialog
deriving Repr

/-- The body of submitAssignment.handle (submitAssignment.ts lines 49-174)
after parameter validation: snapshot check, operation loop, submit click,
one-second wait, dialog arbitration, result classification.  Any error
thrown inside the `try` is caught at line 167 and converted into a result
whose single content text is `Error during assignment submission: ` plus the
message — the trace accumulated so far is not part of that result. -/
def submitAssignmentHandle (env : PageEnv) (p : SubmitParams) : ToolResult × RunLog :=
  if !env.snapshotAvailable then
    (⟨["Error during assignment submission: No snapshot available. Please run browser_snapshot first."], true⟩,
      ⟨[], [], [], false, false, false, env.pendingDialog⟩)
  else
    let sr := runOps env p.operations
    match sr.err with
    | some e =>
      (⟨["Error during assignment submission: " ++ e], true⟩,
        ⟨sr.trace, sr.attempted, sr.uploads, false, false, false, env.pendingDialog⟩)
    | none =>
      let submitName := p.submitButtonElement.getD ("Submit button (ref: " ++ p.submitButtonRef ++ ")")
      match env.clickErr p.submitButtonRef with
      | some e =>
        (⟨["Error during assignment submission: " ++ e], true⟩,
          ⟨sr.trace, sr.attempted, sr.uploads, true, false, false, env.pendingDialog⟩)
      | none =>
        let afterSubmit := sr.trace ++ [s!"Clicked \"{submitName}\""]
        let dout := arbiter env.pendingDialog
        let finalTrace := afterSubmit ++ dout.entries
        let n := p.operations.length
        let joined := "\n- ".intercalate finalTrace
        let msg := s!"Successfully performed {n} input operations, clicked the submit button, and handled any dialogs if present:\n- {joined}"
        (⟨[msg], dout.errorDetected⟩,
          ⟨finalTrace, sr.attempted, sr.uploads, true, dout.acceptCalled, dout.dismissCalled,
            dout.pendingAfter⟩)

/-- Shape of an operation field as received over the wire, before zod
validation: a field may be missing (`none`), and `value` may also hold a
shape outside the accepted union (`other`, carrying its `typeof`
description). -/
inductive RawValue where
  | str (s : String)
  | strs (l : List String)
  | undef
  | other (desc : String)
deriving Repr, DecidableEq

/-- An unvalidated operation object of a submit_assignment request. -/
structure RawOperation where
  action : Option String
  ref : Option String
  value : RawValue
  element : Option String
deriving Repr, DecidableEq

/-- An unvalidated submit_assignment request body. -/
structure RawSubmitParams where
  operations : Option (List RawOperation)
  submitButtonRef : Option String
  submitButtonElement : Option String
deriving Repr, DecidableEq

/-- The action enum check of `actionSchema` (submitAssignment.ts line 22). -/
def parseAction (s : String) : Option Action :=
  if s = "type" then some .type'
  else if s = "click" then some .click
  else if s = "check" then some .check
  else if s = "uncheck" then some .uncheck
  else if s = "select" then some .select
  else if s = "upload" then some .upload
  else none

/-- The `value` union check: string, array of strings or undefined pass, any
other shape is a validation error (error texts model zod issues). -/
def parseValue : RawValue → Except String JSValue
  | .str s => .ok (.str s)
  | .strs l => .ok (.strs l)
  | .undef => .ok .absent
  | .other d => .error s!"operations.value: Invalid input, got {d}"

/-- Validation of one operation object against `operationSchema`
(submitAssignment.ts lines 24-33): `action` must be a member of the enum,
`ref` must be a string, `value` must match the union, `element` is
optional. -/
def parseOperation (r : RawOperation) : Except String Operation := do
  let a ← match r.action with
    | none => Except.error "operations.action: Required"
    | some s =>
      match parseAction s with
      | some a => Except.ok a
      | none => Except.error s!"operations.action: Invalid enum value {s}"
  let ref ← match r.ref with
    | none => Except.error "operations.ref: Required"
    | some s => Except.ok s
  let v ← parseValue r.value
  Except.ok ⟨a, ref, v, r.element⟩

/-- Validation of a whole request against `submitAssignmentSchema`
(submitAssignment.ts lines 35-39): `operations` must be an array (possibly
empty) of valid operations and `submitButtonRef` must be a string.  A
failure models `submitAssignmentSchema.parse` throwing a ZodError — which
happens at line 50, before the handler's `try` block. -/
def parseSubmitParams (r : RawSubmitParams) : Except String SubmitParams := do
  let ops ← match r.operations with
    | none => Except.error "operations: Required"
    | some l => l.mapM parseOperation
  let sbr ← match r.submitButtonRef with
    | none => Except.error "submitButtonRef: Required"
    | some s => Except.ok s
  Except.ok ⟨ops, sbr, r.submitButtonElement⟩

/-- submitAssignment.handle as the server sees it: parameter validation runs
before the `try` block, so a validation failure is a thrown exception
escaping the handler (`Except.error`); everything past validation is handled
inside the function and yields a plain result. -/
def submitAssignmentHandleExcept (env : PageEnv) (raw : RawSubmitParams) :
    Except String (ToolResult × RunLog) :=
  match parseSubmitParams raw with
  | .error e => .error e
  | .ok p => .ok (submitAssignmentHandle env p)

/-- A tool as registered with the server: a name and the outcome of running
its handler on the already-received request arguments (`Except.error`
modelling a thrown exception). -/
structure RegisteredTool where
  name : String
  run : Except String ToolResult

/-- The CallToolRequest handler of server.ts lines 51-69: look the tool up by
name, run its handler inside `try`, and convert a thrown exception into a
structured `isError` result (`String(error)` as the single content text). -/
def callTool (tools : List RegisteredTool) (reqName : String) : ToolResult :=
  match tools.find? (fun t => t.name == reqName) with
  | none => ⟨[s!"Tool \"{reqName}\" not found"], true⟩
  | some t =>
    match t.run with
    | .ok r => r
    | .error e => ⟨[e], true⟩

/-- Parameters of browser_handle_dialog (handleDialog.ts lines 22-25). -/
structure HandleDialogParams where
  accept : Bool
  promptText : Option String
deriving Repr, DecidableEq

/-- handleDialog.handle (handleDialog.ts lines 34-65): with no pending dialog
return an error; otherwise accept or dismiss per the request — the slot is
cleared only after that call returns, so a throwing accept/dismiss leaves
the slot untouched and yields an error result.  Returns the result and the
slot content afterwards. -/
def handleDialogHandle (p : HandleDialogParams) (slot : Option Dialog) :
    ToolResult × Option Dialog :=
  match slot with
  | none => (⟨["No dialog visible"], true⟩, none)
  | some d =>
    let outcome := if p.accept then d.acceptErr else d.dismissErr
    match outcome with
    | none =>
      let dt := d.dtype
      let m := d.message
      let verb := if p.accept then "accepted" else "dismissed"
      (⟨[s!"Dialog \"{dt}\" with message \"{m}\" {verb}"], false⟩, none)
    | some e => (⟨["Failed to handle dialog: " ++ e], true⟩, some d)

/-- The browser environment of a login attempt, one field per bounded
probe/action of the probe-variant loginTool.handle: `isVisible` probes
return a boolean (they do not throw on timeout), `waitForSelector`/`goto`/
`fill`/`click`/`waitForURL` either resolve (`none`) or reject with a
message. -/
structure LoginEnv where
  envUsername : Option String
  envPassword : Option String
  gotoRootErr : Option String
  signInVisible : Bool
  signInClickErr : Option String
  idmUserVisibleProbe : Bool
  bodyVisibleAfterProbe : Option String
  gotoCoursesErr : Option String
  idmUserVisibleCheck : Bool
  fillUserErr : Option String
  fillPassErr : Option String
  loginClickErr : Option String
  waitUrlErr : Option String
  bodyVisibleAfterLogin : Option String
  bodyVisibleFallback : Option String

/-- Instrumentation of a login run: whether the identity-provider username
and password fields were ever filled. -/
structure LoginLog where
  usernameFilled : Bool
  passwordFilled : Bool
deriving Repr, DecidableEq

/-- JavaScript truthiness of `process.env.X`: unset or empty is falsy. -/
def envTruthy : Option String → Bool
  | none => false
  | some s => !s.isEmpty

/-- The ID-manager phase of the probe-variant login (lines 78-116): re-check
the username field; if visible, fill both fields, click LOG IN and confirm;
otherwise confirm the indicator and succeed, or report the confirmation
failure. -/
def loginIdmPhase (env : LoginEnv) : ToolResult × LoginLog :=
  if env.idmUserVisibleCheck then
    match env.fillUserErr with
    | some e => (⟨["Login failed: " ++ e], true⟩, ⟨true, false⟩)
    | none =>
      match env.fillPassErr with
      | some e => (⟨["Login failed: " ++ e], true⟩, ⟨true, true⟩)
      | none =>
        match env.loginClickErr with
        | some e => (⟨["Login failed: " ++ e], true⟩, ⟨true, true⟩)
        | none =>
          match env.waitUrlErr with
          | some e => (⟨["Login failed: " ++ e], true⟩, ⟨true, true⟩)
          | none =>
            match env.bodyVisibleAfterLogin with
            | some e => (⟨["Login failed: " ++ e], true⟩, ⟨true, true⟩)
            | none =>
              match env.gotoCoursesErr with
              | some e => (⟨["Login failed: " ++ e], true⟩, ⟨true, true⟩)
              | none =>
                (⟨["\x7b\x22success\x22:true,\x22message\x22:\x22Successfully logged in to INIAD MOOCs using INIAD Account and navigated to courses page.\x22\x7d"],
                    false⟩, ⟨true, true⟩)
  else
    match env.bodyVisibleFallback with
    | some _ =>
      (⟨["Login failed: Could not confirm final login state."], true⟩, ⟨false, false⟩)
    | none =>
      match env.gotoCoursesErr with
      | some _ =>
        (⟨["Login failed: Could not confirm final login state."], true⟩, ⟨false, false⟩)
      | none =>
        (⟨["\x7b\x22success\x22:true,\x22message\x22:\x22Login to INIAD MOOCs confirmed and navigated to courses page.\x22\x7d"],
            false⟩, ⟨false, false⟩)

/-- The probe-variant loginTool.handle (the unnamed login source, lines
33-130): eager credential check; navigate to the platform root; probe for
the sign-in link with a 1 s bound; if absent, probe for the identity-provider
username field, and if that is absent too, confirm the post-login indicator
and short-circuit to success (navigating to the courses page) — the inner
catch falls through to the ID-manager check.  If the username field is
visible at the re-check, fill username and password, click LOG IN, and await
the redirect and the indicator; otherwise confirm the indicator once more.
All thrown errors are caught and yield `Login failed: ` results. -/
def loginHandle (env : LoginEnv) : ToolResult × LoginLog :=
  if !envTruthy env.envUsername || !envTruthy env.envPassword then
    (⟨["Error: INIAD_USERNAME and INIAD_PASSWORD environment variables must be set."], true⟩,
      ⟨false, false⟩)
  else
    match env.gotoRootErr with
    | some e => (⟨["Login failed: " ++ e], true⟩, ⟨false, false⟩)
    | none =>
      if env.signInVisible then
        match env.signInClickErr with
        | some e => (⟨["Login failed: " ++ e], true⟩, ⟨false, false⟩)
        | none => loginIdmPhase env
      else
        if !env.idmUserVisibleProbe then
          match env.bodyVisibleAfterProbe with
          | none =>
            match env.gotoCoursesErr with
            | none =>
              (⟨["\x7b\x22success\x22:true,\x22message\x22:\x22Already logged in to INIAD MOOCs and navigated to courses page.\x22\x7d"],
                  false⟩, ⟨false, false⟩)
            | some _ => loginIdmPhase env
          | some _ => loginIdmPhase env
        else
          loginIdmPhase env

/-- The submit_assignment tool as registered with the server for a given
browser environment and raw request. -/
def submitRegistered (env : PageEnv) (raw : RawSubmitParams) : RegisteredTool :=
  ⟨"submit_assignment", (submitAssignmentHandleExcept env raw).map Prod.fst⟩

/-- Trace entries contributed by one successful operation: two for an upload
(trigger click and file selection), one for every other action. -/
def opEntryCount (op : Operation) : Nat :=
  if op.action = .upload then 2 else 1

/-- A benign browser environment: snapshot present, every primitive
succeeds, the file chooser appears, no dialog pending. -/
def okEnv : PageEnv :=
  { snapshotAvailable := true
    fillErr := fun _ _ => none
    clickErr := fun _ => none
    checkErr := fun _ => none
    uncheckErr := fun _ => none
    selectErr := fun _ _ => none
    chooserAppears := fun _ => true
    setFilesErr := fun _ _ => none
    pendingDialog := none }

/-- A dialog carrying exactly the accepted English confirmation phrase. -/
def dlgEN : Dialog :=
  ⟨"All your answers have been saved.", "alert", none, none⟩

/-- A dialog whose message contains neither accepted phrase. -/
def dlgBad : Dialog :=
  ⟨"Something went wrong", "alert", none, none⟩

/-- The benign environment with the accepted-phrase dialog pending. -/
def envDlgEN : PageEnv :=
  { okEnv with pendingDialog := some dlgEN }

/-- The benign environment with the mismatching dialog pending. -/
def envDlgBad : PageEnv :=
  { okEnv with pendingDialog := some dlgBad }

/-- Concrete request for C1's counterexample: a click that succeeds followed
by a `type` operation whose value is an array (invalid shape). -/
def paramsC1 : SubmitParams :=
  ⟨[⟨.click, "r1", .absent, none⟩, ⟨.type', "r2", .strs ["x"], none⟩], "rs", none⟩

/-- Concrete request for C3's counterexample: a single upload operation. -/
def paramsC3 : SubmitParams :=
  ⟨[⟨.upload, "u1", .str "/tmp/a.txt", none⟩], "rs", none⟩

/-- Concrete request for C6's counterexample: two successful uploads, then a
`type` operation whose value is absent (invalid shape). -/
def paramsC6 : SubmitParams :=
  ⟨[⟨.upload, "u1", .str "/a", none⟩, ⟨.upload, "u2", .str "/b", none⟩,
      ⟨.type', "r3", .absent, none⟩], "rs", none⟩

/-- Concrete request with no input operations (C4, C5, C9). -/
def paramsEmpty : SubmitParams :=
  ⟨[], "rs", none⟩

/-- A login environment describing an already-authenticated session: the
sign-in link and the identity-provider username field are both invisible
within their probe bounds, the post-login indicator is visible, and all
navigations succeed. -/
def loggedInEnv : LoginEnv :=
  { envUsername := some "s1f10230000"
    envPassword := some "pw"
    gotoRootErr := none
    signInVisible := false
    signInClickErr := none
    idmUserVisibleProbe := false
    bodyVisibleAfterProbe := none
    gotoCoursesErr := none
    idmUserVisibleCheck := true
    fillUserErr := none
    fillPassErr := none
    loginClickErr := none
    waitUrlErr := none
    bodyVisibleAfterLogin := none
    bodyVisibleFallback := none }

/-- Prefix of successful operations for C6's witness. -/
def preW : List Operation :=
  [⟨.click, "r1", .absent, none⟩]

/-- The failing operation for C6's witness: `type` with an array value. -/
def opW : Operation :=
  ⟨.type', "r2", .strs ["x"], none⟩

/-- Suffix of operations (never attempted) for C6's witness. -/
def sufW : List Operation :=
  [⟨.check, "r9", .absent, none⟩]

/-- A raw request missing its mandatory submitButtonRef: schema validation
fails on it. -/
def rawMissingRef : RawSubmitParams :=
  ⟨some [], none, none⟩

/-- A successful operation appends two trace entries if it is an upload and
one otherwise. -/
theorem execOp_success_length (env : PageEnv) (op : Operation)
    (h : (execOp env op).err = none) :
    (execOp env op).entries.length = opEntryCount op := by
  unfold execOp opEntryCount at *
  cases hact : op.action <;> simp only [hact] at h ⊢ <;>
    (repeat' split at h) <;> simp_all

/-- When every operation of the list succeeds, the loop succeeds and the
trace is the concatenation of the per-operation entries. -/
theorem runOps_success_trace (env : PageEnv) (ops : List Operation)
    (h : ∀ op ∈ ops, (execOp env op).err = none) :
    (runOps env ops).err = none ∧
    (runOps env ops).trace.length = (ops.map opEntryCount).sum := by
  induction ops with
  | nil => simp [runOps]
  | cons op rest ih =>
    have hop : (execOp env op).err = none := h op (by simp)
    have hrest : ∀ o ∈ rest, (execOp env o).err = none := fun o ho => h o (by simp [ho])
    obtain ⟨he, hl⟩ := ih hrest
    simp [runOps, hop, he, hl, execOp_success_length env op hop]

/-- The per-operation entry counts sum to the number of operations plus the
number of uploads among them. -/
theorem entryCount_sum (ops : List Operation) :
    (ops.map opEntryCount).sum
      = ops.length + (ops.filter (fun op => op.action == .upload)).length := by
  induction ops with
  | nil => rfl
  | cons op rest ih =>
    by_cases h : op.action = .upload <;>
      simp [opEntryCount, h, List.filter_cons, ih] <;> omega

/-- When the operations before `op` succeed and `op` fails, the loop's
outcome is determined by that prefix alone: the suffix contributes nothing
to the trace, the attempted list, the presentations or the error. -/
theorem runOps_fail_at (env : PageEnv) (pre suf : List Operation) (op : Operation)
    (e : String)
    (hpre : ∀ o ∈ pre, (execOp env o).err = none)
    (hfail : (execOp env op).err = some e) :
    runOps env (pre ++ op :: suf) =
      ⟨(runOps env pre).trace ++ (execOp env op).entries,
        pre ++ [op],
        (runOps env pre).uploads ++ (execOp env op).uploads,
        some e⟩ := by
  induction pre with
  | nil => simp [runOps, hfail]
  | cons q rest ih =>
    have hq : (execOp env q).err = none := hpre q (by simp)
    have hrest : ∀ o ∈ rest, (execOp env o).err = none := fun o ho => hpre o (by simp [ho])
    simp [runOps, hq, ih hrest]

/-- C5: for every submission in which all operations and the submit click
succeed but no dialog is registered in the pending-dialog slot after the
post-submit grace period, the result has `isError = true` and the trace
contains the line stating that no confirmation dialog appeared (that line is
also part of the text returned to the caller). -/
theorem c5_no_dialog_is_error (env : PageEnv) (p : SubmitParams)
    (hsnap : env.snapshotAvailable = true)
    (hops : (runOps env p.operations).err = none)
    (hsubmit : env.clickErr p.submitButtonRef = none)
    (hnodlg : env.pendingDialog = none) :
    (submitAssignmentHandle env p).1.isError = true ∧
    "Error: No confirmation dialog appeared after clicking submit"
      ∈ (submitAssignmentHandle env p).2.trace := by
  simp [submitAssignmentHandle, hsnap, hops, hsubmit, hnodlg, arbiter]

/-- C5 witness: the empty-operation request against the benign environment
with no pending dialog. -/
theorem c5_no_dialog_is_error_witness :
    (submitAssignmentHandle okEnv paramsEmpty).1.isError = true ∧
    "Error: No confirmation dialog appeared after clicking submit"
      ∈ (submitAssignmentHandle okEnv paramsEmpty).2.trace :=
  c5_no_dialog_is_error okEnv paramsEmpty rfl (by decide) rfl rfl

/-- C7: for every upload operation whose trigger click succeeds and whose
file chooser appears, the coordinator presents to the chooser exactly the
single given path when `value` is one (nonempty) path string, and exactly
the given paths in the same order when `value` is a sequence of paths. -/
theorem c7_upload_paths (env : PageEnv) (op : Operation)
    (hact : op.action = .upload)
    (hclick : env.clickErr op.ref = none)
    (hch : env.chooserAppears op.ref = true) :
    (∀ s, op.value = .str s → s ≠ "" → (execOp env op).uploads = [(op.ref, [s])]) ∧
    (∀ l, op.value = .strs l → (execOp env op).uploads = [(op.ref, l)]) := by
  constructor
  · intro s hv hs
    have hne : s.isEmpty = false := by
      cases hempty : s.isEmpty
      · rfl
      · exact absurd ((String.isEmpty_iff s).mp hempty) hs
    rcases hsf : env.setFilesErr op.ref [s] with _ | e <;>
      simp [execOp, hact, hv, hclick, hch, hsf, JSValue.truthy, JSValue.asList, hne]
  · intro l hv
    rcases hsf : env.setFilesErr op.ref l with _ | e <;>
      simp [execOp, hact, hv, hclick, hch, hsf, JSValue.truthy, JSValue.asList]

/-- C7 witness: a single-path upload and a two-path upload against the benign
environment. -/
theorem c7_upload_paths_witness :
    (execOp okEnv ⟨.upload, "u1", .str "/a", none⟩).uploads = [("u1", ["/a"])] ∧
    (execOp okEnv ⟨.upload, "u2", .strs ["/a", "/b"], none⟩).uploads
      = [("u2", ["/a", "/b"])] :=
  ⟨(c7_upload_paths okEnv ⟨.upload, "u1", .str "/a", none⟩ rfl rfl rfl).1 "/a" rfl
      (by decide),
    (c7_upload_paths okEnv ⟨.upload, "u2", .strs ["/a", "/b"], none⟩ rfl rfl rfl).2
      ["/a", "/b"] rfl⟩

/-- C8: probing a session that is already authenticated — credentials set,
root navigation succeeding, no sign-in affordance and no identity-provider
username field visible within the probe bounds, post-login indicator
present — completes the login successfully without ever filling the
identity-provider username or password fields. -/
theorem c8_already_authenticated_no_fill (env : LoginEnv)
    (hu : envTruthy env.envUsername = true)
    (hp : envTruthy env.envPassword = true)
    (hgoto : env.gotoRootErr = none)
    (hsign : env.signInVisible = false)
    (hidm : env.idmUserVisibleProbe = false)
    (hbody : env.bodyVisibleAfterProbe = none)
    (hcourses : env.gotoCoursesErr = none) :
    (loginHandle env).1.isError = false ∧
    (loginHandle env).2.usernameFilled = false ∧
    (loginHandle env).2.passwordFilled = false := by
  simp [loginHandle, hu, hp, hgoto, hsign, hidm, hbody, hcourses]

/-- C8 witness: the concrete already-authenticated environment (where the
identity-provider field would even be fillable later, yet is never
reached). -/
theorem c8_already_authenticated_no_fill_witness :
    (loginHandle loggedInEnv).1.isError = false ∧
    (loginHandle loggedInEnv).2.usernameFilled = false ∧
    (loginHandle loggedInEnv).2.passwordFilled = false :=
  c8_already_authenticated_no_fill loggedInEnv rfl rfl rfl rfl rfl rfl rfl

/-- C9: a request whose operations list is empty but whose submitButtonRef
is present passes schema validation and is executed: no input operation is
attempted and the pipeline proceeds directly to clicking the submit
target. -/
theorem c9_empty_operations_valid (env : PageEnv) (r : String) (sbe : Option String)
    (hsnap : env.snapshotAvailable = true) :
    parseSubmitParams ⟨some [], some r, sbe⟩ = .ok ⟨[], r, sbe⟩ ∧
    (submitAssignmentHandle env ⟨[], r, sbe⟩).2.attempted = [] ∧
    (submitAssignmentHandle env ⟨[], r, sbe⟩).2.submitClicked = true := by
  refine ⟨rfl, ?_, ?_⟩ <;>
    rcases h : env.clickErr r with _ | e <;>
      simp [submitAssignmentHandle, hsnap, runOps, h]

/-- C9 witness: the empty-operations request against the benign
environment. -/
theorem c9_empty_operations_valid_witness :
    parseSubmitParams ⟨some [], some "rs", none⟩ = .ok ⟨[], "rs", none⟩ ∧
    (submitAssignmentHandle okEnv ⟨[], "rs", none⟩).2.attempted = [] ∧
    (submitAssignmentHandle okEnv ⟨[], "rs", none⟩).2.submitClicked = true :=
  c9_empty_operations_valid okEnv "rs" none rfl

/-- C10: browser_handle_dialog clears the pending-dialog slot only after the
dialog's accept or dismiss returns: on success the slot is cleared and the
result is not an error; if accept/dismiss throws, the tool returns an error
result and the slot still holds the dialog — unlike the submission
pipeline's arbiter, which clears the slot in all cases. -/
theorem c10_slot_cleared_only_on_success (p : HandleDialogParams) (d : Dialog) :
    ((if p.accept then d.acceptErr else d.dismissErr) = none →
      (handleDialogHandle p (some d)).2 = none ∧
      (handleDialogHandle p (some d)).1.isError = false) ∧
    (∀ e, (if p.accept then d.acceptErr else d.dismissErr) = some e →
      (handleDialogHandle p (some d)).1.isError = true ∧
      (handleDialogHandle p (some d)).2 = some d) ∧
    (arbiter (some d)).pendingAfter = none := by
  refine ⟨?_, ?_, ?_⟩
  · intro h
    simp [handleDialogHandle, h]
  · intro e h
    simp [handleDialogHandle, h]
  · rcases h : d.acceptErr with _ | e <;> simp [arbiter, h]

/-- C10 witness: a dialog whose accept throws — the result is an error and
the slot keeps the dialog. -/
theorem c10_slot_cleared_only_on_success_witness :
    (handleDialogHandle ⟨true, none⟩ (some ⟨"m", "alert", some "boom", none⟩)).1.isError
        = true ∧
    (handleDialogHandle ⟨true, none⟩ (some ⟨"m", "alert", some "boom", none⟩)).2
        = some ⟨"m", "alert", some "boom", none⟩ :=
  (c10_slot_cleared_only_on_success ⟨true, none⟩
      ⟨"m", "alert", some "boom", none⟩).2.1 "boom" (by decide)

/-- Every result submitAssignment.handle produces carries exactly one
content text. -/
theorem submitAssignmentHandle_content_length (env : PageEnv) (p : SubmitParams) :
    (submitAssignmentHandle env p).1.content.length = 1 := by
  by_cases hs : env.snapshotAvailable <;> simp [submitAssignmentHandle, hs]
  rcases h : (runOps env p.operations).err with _ | e <;> simp [h]
  rcases h2 : env.clickErr p.submitButtonRef with _ | e2 <;> simp [h2]

/-- C1 counterexample: a request whose first operation completes (one trace
entry) and whose second fails; the error result returned has `isError` set
but its text does not include the completed step's trace line. -/
theorem c1_counterexample :
    (submitAssignmentHandle okEnv paramsC1).2.trace = ["Clicked \"element with ref r1\""] ∧
    (submitAssignmentHandle okEnv paramsC1).1.isError = true ∧
    ((submitAssignmentHandle okEnv paramsC1).1.content.any
        (fun c => strIncludes c "Clicked \"element with ref r1\"")) = false := by
  decide

/-- C1 (amended): when an operation fails, the error result returned to the
caller consists of the failure's message alone — the trace of completed
steps is not included in it (only the post-submit dialog-error path returns
the trace). -/
theorem c1_error_result_omits_trace (env : PageEnv) (p : SubmitParams) (e : String)
    (hsnap : env.snapshotAvailable = true)
    (herr : (runOps env p.operations).err = some e) :
    (submitAssignmentHandle env p).1 =
      ⟨["Error during assignment submission: " ++ e], true⟩ := by
  simp [submitAssignmentHandle, hsnap, herr]

/-- C1 witness: the concrete failing request of the counterexample, via the
amended theorem. -/
theorem c1_error_result_omits_trace_witness :
    (submitAssignmentHandle okEnv paramsC1).1 =
      ⟨["Error during assignment submission: Invalid value type for 'type' action: expected string, got object"],
        true⟩ :=
  c1_error_result_omits_trace okEnv paramsC1
    "Invalid value type for 'type' action: expected string, got object" rfl (by decide)

/-- C2: every invocation through the call-tool boundary yields a structured
result: a thrown validation error (which escapes the handler, since parsing
runs before its try block) is converted to an error-flagged result carrying
the message; a handler that returns normally has its result passed through
(always with exactly one content text); and generally any tool whose handler
throws produces an error-flagged structured result, never an uncaught
exception. -/
theorem c2_server_boundary_structured (env : PageEnv) (raw : RawSubmitParams)
    (rest : List RegisteredTool) :
    (∀ e, parseSubmitParams raw = .error e →
      callTool (submitRegistered env raw :: rest) "submit_assignment" = ⟨[e], true⟩) ∧
    (∀ p, parseSubmitParams raw = .ok p →
      callTool (submitRegistered env raw :: rest) "submit_assignment"
        = (submitAssignmentHandle env p).1) ∧
    (callTool (submitRegistered env raw :: rest) "submit_assignment").content.length = 1 ∧
    (∀ (ts : List RegisteredTool) (nm e : String) (t : RegisteredTool),
      ts.find? (fun x => x.name == nm) = some t → t.run = .error e →
      callTool ts nm = ⟨[e], true⟩) := by
  refine ⟨?_, ?_, ?_, ?_⟩
  · intro e h
    simp [callTool, List.find?, submitRegistered, submitAssignmentHandleExcept, h,
      Except.map]
  · intro p h
    simp [callTool, List.find?, submitRegistered, submitAssignmentHandleExcept, h,
      Except.map]
  · rcases h : parseSubmitParams raw with e | p <;>
      simp [callTool, List.find?, submitRegistered, submitAssignmentHandleExcept, h,
        Except.map, submitAssignmentHandle_content_length]
  · intro ts nm e t hfind hrun
    simp [callTool, hfind, hrun]

/-- C2 witness: a request missing its submitButtonRef fails validation and
comes back from the boundary as a structured error result. -/
theorem c2_server_boundary_structured_witness :
    callTool [submitRegistered okEnv rawMissingRef] "submit_assignment"
      = ⟨["submitButtonRef: Required"], true⟩ :=
  (c2_server_boundary_structured okEnv rawMissingRef []).1 "submitButtonRef: Required" rfl

/-- C3 counterexample: one upload operation, everything succeeding, the
accepted-phrase dialog registered — the verdict is no error, but the trace
has 4 entries, not operations.length + 2 = 3 (the upload contributed
two). -/
theorem c3_counterexample :
    (submitAssignmentHandle envDlgEN paramsC3).1.isError = false ∧
    (submitAssignmentHandle envDlgEN paramsC3).2.trace.length = 4 ∧
    paramsC3.operations.length + 2 = 3 := by
  decide

/-- C3 (amended): when every operation succeeds, the submit click succeeds,
and a dialog whose message contains an accepted phrase is registered and
accepts cleanly, the verdict is `isError = false` and the trace length is
operations.length plus the number of upload operations plus 2 (uploads
contribute two entries each; with no uploads this is operations.length
+ 2). -/
theorem c3_success_trace_length (env : PageEnv) (p : SubmitParams) (d : Dialog)
    (hsnap : env.snapshotAvailable = true)
    (hops : ∀ op ∈ p.operations, (execOp env op).err = none)
    (hsubmit : env.clickErr p.submitButtonRef = none)
    (hdlg : env.pendingDialog = some d)
    (hmsg : trimmedIncludes d.message expectedJP = true ∨
      trimmedIncludes d.message expectedEN = true)
    (hacc : d.acceptErr = none) :
    (submitAssignmentHandle env p).1.isError = false ∧
    (submitAssignmentHandle env p).2.trace.length
      = p.operations.length
        + (p.operations.filter (fun op => op.action == .upload)).length + 2 := by
  obtain ⟨he, hl⟩ := runOps_success_trace env p.operations hops
  have ha1 : (arbiter (some d)).errorDetected = false := by
    rcases hmsg with h | h <;> simp [arbiter, h, hacc]
  have ha2 : (arbiter (some d)).entries.length = 1 := by
    rcases hmsg with h | h <;> simp [arbiter, h, hacc]
  constructor
  · simp [submitAssignmentHandle, hsnap, he, hsubmit, hdlg, ha1]
  · have hsum := entryCount_sum p.operations
    simp [submitAssignmentHandle, hsnap, he, hsubmit, hdlg, ha2, hl, hsum]

/-- C3 witness: the single-upload request of the counterexample satisfies
the amended count operations.length + uploads + 2 = 4. -/
theorem c3_success_trace_length_witness :
    (submitAssignmentHandle envDlgEN paramsC3).1.isError = false ∧
    (submitAssignmentHandle envDlgEN paramsC3).2.trace.length
      = paramsC3.operations.length
        + (paramsC3.operations.filter (fun op => op.action == .upload)).length + 2 :=
  c3_success_trace_length envDlgEN paramsC3 dlgEN rfl (by decide) rfl rfl
    (Or.inr (by decide)) rfl

/-- C4 counterexample: with a pending dialog whose message contains neither
accepted phrase, the arbiter does not dismiss it — it accepts it (while
flagging the error and recording the raw message). -/
theorem c4_counterexample :
    (submitAssignmentHandle envDlgBad paramsEmpty).2.dismissCalled = false ∧
    (submitAssignmentHandle envDlgBad paramsEmpty).2.acceptCalled = true ∧
    (submitAssignmentHandle envDlgBad paramsEmpty).1.isError = true ∧
    "Unexpected dialog message detected: \"Something went wrong\""
      ∈ (submitAssignmentHandle envDlgBad paramsEmpty).2.trace := by
  decide

/-- C4 (amended): for every post-submit dialog whose message contains
neither accepted phrase, the arbiter accepts (not dismisses) the dialog,
flags the outcome as an error, records the raw dialog message in the trace,
and clears the pending-dialog slot. -/
theorem c4_mismatched_dialog_accepted (env : PageEnv) (p : SubmitParams) (d : Dialog)
    (hsnap : env.snapshotAvailable = true)
    (hops : (runOps env p.operations).err = none)
    (hsubmit : env.clickErr p.submitButtonRef = none)
    (hdlg : env.pendingDialog = some d)
    (hjp : trimmedIncludes d.message expectedJP = false)
    (hen : trimmedIncludes d.message expectedEN = false) :
    (submitAssignmentHandle env p).1.isError = true ∧
    (submitAssignmentHandle env p).2.acceptCalled = true ∧
    (submitAssignmentHandle env p).2.dismissCalled = false ∧
    s!"Unexpected dialog message detected: \"{d.message}\""
      ∈ (submitAssignmentHandle env p).2.trace ∧
    (submitAssignmentHandle env p).2.pendingAfter = none := by
  rcases hacc : d.acceptErr with _ | e <;>
    simp [submitAssignmentHandle, hsnap, hops, hsubmit, hdlg, arbiter, hjp, hen, hacc]

/-- C4 witness: the mismatching dialog of the counterexample, via the
amended theorem. -/
theorem c4_mismatched_dialog_accepted_witness :
    (submitAssignmentHandle envDlgBad paramsEmpty).1.isError = true ∧
    (submitAssignmentHandle envDlgBad paramsEmpty).2.acceptCalled = true ∧
    (submitAssignmentHandle envDlgBad paramsEmpty).2.dismissCalled = false ∧
    s!"Unexpected dialog message detected: \"{dlgBad.message}\""
      ∈ (submitAssignmentHandle envDlgBad paramsEmpty).2.trace ∧
    (submitAssignmentHandle envDlgBad paramsEmpty).2.pendingAfter = none :=
  c4_mismatched_dialog_accepted envDlgBad paramsEmpty dlgBad rfl (by decide) rfl rfl
    (by decide) (by decide)

/-- C6 counterexample: two successful uploads and a failing third operation
— the sequence aborts and the submit button is never clicked, but the trace
at failure has 4 entries (not 3 = k under 1-based indexing, nor 2 under
0-based indexing), and the returned error text carries none of it. -/
theorem c6_counterexample :
    (submitAssignmentHandle okEnv paramsC6).1.isError = true ∧
    (submitAssignmentHandle okEnv paramsC6).2.submitClicked = false ∧
    (submitAssignmentHandle okEnv paramsC6).2.trace.length = 4 ∧
    (submitAssignmentHandle okEnv paramsC6).2.trace.length ≠ 3 ∧
    (submitAssignmentHandle okEnv paramsC6).2.trace.length ≠ 2 ∧
    ((submitAssignmentHandle okEnv paramsC6).1.content.any
        (fun c => strIncludes c "Clicked upload trigger")) = false := by
  decide

/-- C6 (amended): if the operations before `op` succeed and `op` fails, no
later operation is ever attempted, the submit button is never clicked, the
result is the error message alone with `isError = true`, and the trace at
failure is the completed prefix's entries (one per non-upload, two per
upload) plus whatever entries the failing operation appended before
throwing. -/
theorem c6_failure_aborts (env : PageEnv) (pre suf : List Operation) (op : Operation)
    (sbr : String) (sbe : Option String) (e : String)
    (hsnap : env.snapshotAvailable = true)
    (hpre : ∀ o ∈ pre, (execOp env o).err = none)
    (hfail : (execOp env op).err = some e) :
    (submitAssignmentHandle env ⟨pre ++ op :: suf, sbr, sbe⟩).1
        = ⟨["Error during assignment submission: " ++ e], true⟩ ∧
    (submitAssignmentHandle env ⟨pre ++ op :: suf, sbr, sbe⟩).2.submitClicked = false ∧
    (submitAssignmentHandle env ⟨pre ++ op :: suf, sbr, sbe⟩).2.attempted = pre ++ [op] ∧
    (submitAssignmentHandle env ⟨pre ++ op :: suf, sbr, sbe⟩).2.trace
        = (runOps env pre).trace ++ (execOp env op).entries := by
  have hrun := runOps_fail_at env pre suf op e hpre hfail
  refine ⟨?_, ?_, ?_, ?_⟩ <;> simp [submitAssignmentHandle, hsnap, hrun]

/-- C6 witness: one successful click, a failing `type` operation, and a
never-attempted suffix operation. -/
theorem c6_failure_aborts_witness :
    (submitAssignmentHandle okEnv ⟨preW ++ opW :: sufW, "rs", none⟩).1
        = ⟨["Error during assignment submission: Invalid value type for 'type' action: expected string, got object"],
            true⟩ ∧
    (submitAssignmentHandle okEnv ⟨preW ++ opW :: sufW, "rs", none⟩).2.submitClicked
        = false ∧
    (submitAssignmentHandle okEnv ⟨preW ++ opW :: sufW, "rs", none⟩).2.attempted
        = preW ++ [opW] ∧
    (submitAssignmentHandle okEnv ⟨preW ++ opW :: sufW, "rs", none⟩).2.trace
        = (runOps okEnv preW).trace ++ (execOp okEnv opW).entries :=
  c6_failure_aborts okEnv preW sufW opW "rs" none
    "Invalid value type for 'type' action: expected string, got object" rfl (by decide)
    (by decide)

end IniadMcp
